import Mathlib

/-!
Verification of the Tekista skill-based task assignment engine.

The Python modules `assignment`, `skills`, `performance` and
`recommendations` are embedded shallowly: floats become rationals,
database rows become structures, SQLAlchemy sessions become explicit
state records, and Python exceptions (in particular `ZeroDivisionError`)
become `Option` results (`none` = the call raises).
-/

namespace Tekista

/-! ### AssignmentMetrics (src/assignment/\_\_init\_\_.py) -/

/-- Python's `str.lower()`, written over the character list so that it
computes by kernel reduction (ASCII case folding, as in the fixtures). -/
def lower (s : String) : String := String.mk (s.data.map Char.toLower)

namespace AssignmentMetrics

/-- MIN_SKILL_MATCH threshold from the class constants. -/
def MIN_SKILL_MATCH : ℚ := 1/2

/-- Embeds `calculate_skill_match`: fraction of required skills (case-insensitive,
as sets) present in the user's skills; 1.0 when nothing is required, 0.0
when the user has no skills. -/
def calculate_skill_match (user_skills required_skills : List String) : ℚ :=
  if required_skills = [] then 1
  else if user_skills = [] then 0
  else
    let user_skills_set := (user_skills.map lower).dedup
    let required_skills_set := (required_skills.map lower).dedup
    let matched_skills := required_skills_set.filter (fun s => user_skills_set.contains s)
    (matched_skills.length : ℚ) / (required_skills_set.length : ℚ)

/-- Embeds `calculate_workload_score`: 0 when at or over capacity, otherwise
`1 - current/max`. -/
def calculate_workload_score (current_hours max_hours : ℚ) : ℚ :=
  if max_hours ≤ current_hours then 0
  else 1 - current_hours / max_hours

/-- Embeds `calculate_experience_score`: `min(level/max_level, 1)`, 0 for a
non-positive level. -/
def calculate_experience_score (experience_level max_level : ℤ) : ℚ :=
  if experience_level ≤ 0 then 0
  else min ((experience_level : ℚ) / (max_level : ℚ)) 1

/-- Embeds `calculate_performance_score` (assignment-side normalisation):
`min(performance/100, 1)`, 0 for a non-positive input. -/
def calculate_performance_score (performance : ℚ) : ℚ :=
  if performance ≤ 0 then 0
  else min (performance / 100) 1

/-- Embeds `calculate_difficulty_adjustment`: `none` models the
`ZeroDivisionError` Python raises when `user_experience = 0`. -/
def calculate_difficulty_adjustment (task_difficulty user_experience : ℤ) : Option ℚ :=
  if user_experience = 0 then none
  else
    let difficulty_ratio := (task_difficulty : ℚ) / (user_experience : ℚ)
    if 3/2 < difficulty_ratio then some (1/2)
    else if difficulty_ratio < 1/2 then some (4/5)
    else some 1

/-- Embeds `calculate_completion_time_estimate`: default `task_difficulty` hours
when there is no history; `none` models the `ZeroDivisionError` raised by
`1.0 / (user_experience / 5.0)` when `user_experience = 0`. -/
def calculate_completion_time_estimate (task_difficulty : ℤ)
    (user_avg_completion_time : ℚ) (user_experience : ℤ) : Option ℚ :=
  if user_avg_completion_time ≤ 0 then some (task_difficulty : ℚ)
  else if user_experience = 0 then none
  else
    let difficulty_factor := (task_difficulty : ℚ) / 5
    let experience_factor := 1 / ((user_experience : ℚ) / 5)
    some (user_avg_completion_time * difficulty_factor * experience_factor)

end AssignmentMetrics

/-! ### Assignment models (src/assignment/models.py) -/

/-- Row of `user_skill_profile` as the assignment engine reads it. -/
structure UserSkillProfile where
  skills : List String
  experience_level : ℤ
  performance_score : ℚ
  tasks_completed : ℕ
  avg_completion_time : ℚ
  current_workload_hours : ℚ
  max_weekly_hours : ℚ
  is_available : Bool
deriving DecidableEq

/-- Row of `task_assignment`; timestamps are UTC seconds. -/
structure TaskAssignment where
  task_id : ℕ
  assigned_user_id : ℕ
  assigned_by_id : Option ℕ
  assignment_strategy : String
  skill_match_score : ℚ
  workload_score : ℚ
  performance_score : ℚ
  overall_score : ℚ
  estimated_completion_hours : Option ℚ
  actual_completion_hours : Option ℚ
  assignment_reason : String
  reassigned_at : Option ℤ
  reassignment_reason : Option String
  assignment_status : String
  assigned_at : ℤ
  completed_at : Option ℤ
deriving DecidableEq

/-- Python truthiness of an optional float: `None` and `0.0` are falsy. -/
def truthyHours : Option ℚ → Bool
  | none => false
  | some x => decide (x ≠ 0)

/-- Embeds `TaskAssignment.mark_completed`: sets status/completed_at and records
`actual_hours` only when it is truthy (`if actual_hours:`). -/
def mark_completed (now : ℤ) (actual_hours : Option ℚ) (a : TaskAssignment) :
    TaskAssignment :=
  { a with
    assignment_status := "completed"
    completed_at := some now
    actual_completion_hours :=
      if truthyHours actual_hours then actual_hours else a.actual_completion_hours }

/-- Embeds `TaskAssignment.cancel`. -/
def cancel (reason : Option String) (a : TaskAssignment) : TaskAssignment :=
  { a with assignment_status := "cancelled", reassignment_reason := reason }

/-- Embeds `TaskAssignment.get_accuracy_ratio`: 0 when either hours field is falsy,
otherwise `ratio` if `ratio ≤ 1` else `1/ratio` for `ratio = actual/estimated`. -/
def get_accuracy_ratio (a : TaskAssignment) : ℚ :=
  if !truthyHours a.actual_completion_hours ∨ !truthyHours a.estimated_completion_hours then 0
  else
    let ratio := a.actual_completion_hours.getD 0 / a.estimated_completion_hours.getD 0
    if ratio ≤ 1 then ratio else 1 / ratio

/-! ### AssignmentService (src/assignment/\_\_init\_\_.py) -/

/-- Row of `task` with the attributes the assignment engine reads. -/
structure Task where
  id : ℕ
  required_skills : List String
  difficulty : ℤ
  status : String
  assignees : List ℕ
deriving DecidableEq

inductive AssignmentStrategy
  | SKILL_MATCH
  | WORKLOAD_BALANCE
  | PERFORMANCE
  | HYBRID
deriving DecidableEq

/-- The `.value` string of the strategy enum. -/
def AssignmentStrategy.value : AssignmentStrategy → String
  | .SKILL_MATCH => "skill_match"
  | .WORKLOAD_BALANCE => "workload_balance"
  | .PERFORMANCE => "performance"
  | .HYBRID => "hybrid"

/-- The score dictionary built by `_calculate_user_score`. -/
structure ScoreData where
  user_id : ℕ
  skill_match : ℚ
  workload_score : ℚ
  performance_score : ℚ
  experience_score : ℚ
  overall_score : ℚ
  estimated_completion_hours : ℚ
  reason : String
deriving DecidableEq

/-- Embeds `_generate_assignment_reason`. -/
def generate_assignment_reason (skill_match workload_score performance_score
    experience_score : ℚ) : String :=
  let reasons : List String :=
    (if 4/5 < skill_match then ["Excellent skill match"]
     else if 3/5 < skill_match then ["Good skill match"] else []) ++
    (if 7/10 < workload_score then ["Low workload"]
     else if 2/5 < workload_score then ["Moderate workload"] else []) ++
    (if 4/5 < performance_score then ["High performer"] else []) ++
    (if 7/10 < experience_score then ["Experienced"] else [])
  if reasons = [] then "Suitable match" else String.intercalate (" | ") reasons

/-- Embeds `_calculate_user_score`. A user without a profile gets the all-zero score
dictionary; `none` models the `ZeroDivisionError` raised inside
`calculate_difficulty_adjustment` / `calculate_completion_time_estimate`
when the profile's `experience_level` is 0. -/
def calculate_user_score (user_id : ℕ) (profile : Option UserSkillProfile)
    (strategy : AssignmentStrategy) (task : Task) : Option ScoreData :=
  match profile with
  | none =>
    some { user_id := user_id, skill_match := 0, workload_score := 0,
           performance_score := 0, experience_score := 0, overall_score := 0,
           estimated_completion_hours := 0, reason := "No skill profile" }
  | some skill_profile =>
    let skill_match :=
      AssignmentMetrics.calculate_skill_match skill_profile.skills task.required_skills
    let workload_score :=
      AssignmentMetrics.calculate_workload_score skill_profile.current_workload_hours 40
    let performance_score :=
      AssignmentMetrics.calculate_performance_score skill_profile.performance_score
    let experience_score :=
      AssignmentMetrics.calculate_experience_score skill_profile.experience_level 10
    match
      AssignmentMetrics.calculate_difficulty_adjustment task.difficulty
        skill_profile.experience_level,
      AssignmentMetrics.calculate_completion_time_estimate task.difficulty
        skill_profile.avg_completion_time skill_profile.experience_level with
    | some difficulty_adjustment, some estimated_completion =>
      let overall_score :=
        match strategy with
        | .SKILL_MATCH => skill_match
        | .WORKLOAD_BALANCE => workload_score
        | .PERFORMANCE => performance_score
        | .HYBRID =>
          (2/5 * skill_match + 3/10 * workload_score +
           1/5 * performance_score + 1/10 * experience_score) * difficulty_adjustment
      some { user_id := user_id, skill_match := skill_match,
             workload_score := workload_score, performance_score := performance_score,
             experience_score := experience_score, overall_score := overall_score,
             estimated_completion_hours := estimated_completion,
             reason := generate_assignment_reason skill_match workload_score
               performance_score experience_score }
    | _, _ => none

/-- Database state visible to `AssignmentService`: the fetched task (if any),
the organisation's users with their optional skill profiles in query order,
and the `task_assignment` table in insertion order. -/
structure OrgState where
  task : Option Task
  users : List (ℕ × Option UserSkillProfile)
  assignments : List TaskAssignment
deriving DecidableEq

inductive AutoAssignResult
  | error
  | noAssign
  | assigned (user_id : ℕ) (data : ScoreData)
deriving DecidableEq

/-- The scoring loop of `auto_assign_task`: score each user in pool order;
`none` when scoring any candidate raises. -/
def score_all (strategy : AssignmentStrategy) (task : Task) :
    List (ℕ × Option UserSkillProfile) → Option (List ScoreData)
  | [] => some []
  | u :: rest =>
    match calculate_user_score u.1 u.2 strategy task, score_all strategy task rest with
    | some s, some l => some (s :: l)
    | _, _ => none

/-- Score every candidate, then drop those below the `MIN_SKILL_MATCH`
floor (`if score_data['skill_match'] < MIN_SKILL_MATCH: continue`). -/
def eligible_scores (strategy : AssignmentStrategy) (task : Task)
    (users : List (ℕ × Option UserSkillProfile)) : Option (List ScoreData) :=
  (score_all strategy task users).map
    (List.filter (fun s => !decide (s.skill_match < AssignmentMetrics.MIN_SKILL_MATCH)))

/-- Head of the stable descending sort by `overall_score`: the list's first
element attaining the maximal score (CPython's `list.sort` is stable, also
with `reverse=True`). -/
def select_best (hd : ScoreData) (tl : List ScoreData) : ScoreData :=
  tl.foldl (fun acc x => if acc.overall_score < x.overall_score then x else acc) hd

/-- The `TaskAssignment` row created by `auto_assign_task`
(`assignment_status` defaults to "active"). -/
def mk_assignment (now : ℤ) (task_id : ℕ) (strategy : AssignmentStrategy)
    (best : ScoreData) : TaskAssignment :=
  { task_id := task_id
    assigned_user_id := best.user_id
    assigned_by_id := none
    assignment_strategy := strategy.value
    skill_match_score := best.skill_match
    workload_score := best.workload_score
    performance_score := best.performance_score
    overall_score := best.overall_score
    estimated_completion_hours := some best.estimated_completion_hours
    actual_completion_hours := none
    assignment_reason := best.reason
    reassigned_at := none
    reassignment_reason := none
    assignment_status := "active"
    assigned_at := now
    completed_at := none }

/-- Embeds `AssignmentService.auto_assign_task`. Returns `noAssign` for a missing
task, an empty pool, or no candidate above the skill floor; `error` when a
candidate's scoring raises; otherwise appends the new active assignment,
appends the winner to `task.assignees` and sets the task status to
"In Progress", all in the single commit. User profiles are not written. -/
def auto_assign_task (strategy : AssignmentStrategy) (now : ℤ) (st : OrgState) :
    AutoAssignResult × OrgState :=
  match st.task with
  | none => (.noAssign, st)
  | some task =>
    if st.users = [] then (.noAssign, st)
    else
      match eligible_scores strategy task st.users with
      | none => (.error, st)
      | some [] => (.noAssign, st)
      | some (hd :: tl) =>
        let best := select_best hd tl
        (.assigned best.user_id best,
         { st with
           task := some { task with
             assignees := task.assignees ++ [best.user_id]
             status := "In Progress" }
           assignments := st.assignments ++ [mk_assignment now task.id strategy best] })

/-- Stamp applied by `reassign_task` to the current assignment: only
`reassigned_at` and `reassignment_reason` are written. -/
def stamp_reassigned (now : ℤ) (reason : Option String) (a : TaskAssignment) :
    TaskAssignment :=
  { a with reassigned_at := some now, reassignment_reason := reason }

/-- Replace the element at an index, identity when out of range. -/
def modify_at (f : TaskAssignment → TaskAssignment) :
    ℕ → List TaskAssignment → List TaskAssignment
  | _, [] => []
  | 0, a :: t => f a :: t
  | n + 1, a :: t => a :: modify_at f n t

/-- The `ORDER BY assigned_at DESC ... first()` query: index and value of the
most recently assigned row (earliest row wins ties). -/
def latest_with_idx : List TaskAssignment → Option (ℕ × TaskAssignment)
  | [] => none
  | a :: t =>
    match latest_with_idx t with
    | none => some (0, a)
    | some (j, b) => if b.assigned_at ≤ a.assigned_at then some (0, a) else some (j + 1, b)

/-- The first phase of `reassign_task`: stamp the most recent assignment,
if any (only `reassigned_at` / `reassignment_reason` are written). -/
def stamp_latest (now : ℤ) (reason : Option String) (st : OrgState) : OrgState :=
  match latest_with_idx st.assignments with
  | none => st
  | some (j, _) =>
    { st with assignments := modify_at (stamp_reassigned now reason) j st.assignments }

/-- Embeds `AssignmentService.reassign_task`: stamps the most recent assignment for
the task (leaving its `assignment_status` untouched), then re-runs
`auto_assign_task`. -/
def reassign_task (strategy : AssignmentStrategy) (now : ℤ) (reason : Option String)
    (st : OrgState) : AutoAssignResult × OrgState :=
  auto_assign_task strategy now (stamp_latest now reason st)

/-! ### Assignment routes (src/assignment/routes.py) -/

/-- Possible HTTP outcomes of the `complete_assignment` view:
404 (`get_or_404`), 403 (not the assigned user), or 200. -/
inductive CompleteResult
  | notFound
  | unauthorized
  | ok
deriving DecidableEq

/-- State visible to the route: the `task_assignment` table keyed by id and
the `user_skill_profile` table keyed by user id. -/
structure RouteState where
  assignments : List (ℕ × TaskAssignment)
  profiles : List (ℕ × UserSkillProfile)
deriving DecidableEq

/-- The `POST /assignments/<id>/complete` view: 404 on unknown id, 403 when
the caller is not the assigned user, otherwise `mark_completed` on the row.
There is no check of the current `assignment_status`, and no write to any
skill profile. -/
def complete_assignment (now : ℤ) (current_user_id : ℕ) (assignment_id : ℕ)
    (actual_hours : Option ℚ) (st : RouteState) : CompleteResult × RouteState :=
  match st.assignments.find? (fun p => p.1 == assignment_id) with
  | none => (.notFound, st)
  | some p =>
    if p.2.assigned_user_id ≠ current_user_id then (.unauthorized, st)
    else
      (.ok,
       { st with
         assignments := st.assignments.map (fun q =>
           if q.1 == assignment_id then (q.1, mark_completed now actual_hours q.2)
           else q) })

/-! ### SkillManager (src/skills/\_\_init\_\_.py) -/

namespace SkillManager

/-- Embeds `profile.skills.get(skill_name, 0)` on the proficiency dictionary. -/
def skills_get (skills : List (String × ℚ)) (skill_name : String) : ℚ :=
  match skills.find? (fun p => p.1 == skill_name) with
  | some p => p.2
  | none => 0

/-- Embeds `profile.skills[skill_name] = v`. -/
def skills_set (skills : List (String × ℚ)) (skill_name : String) (v : ℚ) :
    List (String × ℚ) :=
  if skills.any (fun p => p.1 == skill_name) then
    skills.map (fun p => if p.1 == skill_name then (p.1, v) else p)
  else skills ++ [(skill_name, v)]

/-- The arithmetic core of `increment_skill`: add, then apply diminishing
returns above 100. -/
def increment_skill_value (current increment : ℚ) : ℚ :=
  let new_value := current + increment
  if 100 < new_value then 100 + (new_value - 100) * (1/10) else new_value

/-- Embeds `SkillManager.increment_skill` on the stored skill dictionary. -/
def increment_skill (skills : List (String × ℚ)) (skill_name : String)
    (increment : ℚ) : List (String × ℚ) :=
  skills_set skills skill_name
    (increment_skill_value (skills_get skills skill_name) increment)

end SkillManager

/-! ### PerformanceService (src/performance/\_\_init\_\_.py) -/

namespace PerformanceService

/-- A completed `task_assignment` row joined with its task, as read by the
performance recomputation. Timestamps are UTC seconds; `task_difficulty`
is `none` when the task or its difficulty is missing/falsy. -/
structure CompletedRow where
  skill_match_score : Option ℚ
  completed_at : Option ℤ
  due_date : Option ℤ
  task_difficulty : Option ℤ
  actual_completion_hours : Option ℚ
deriving DecidableEq

/-- Embeds `calculate_completion_speed`: days early (positive) or late (negative). -/
def calculate_completion_speed (deadline completion_time : ℤ) : ℚ :=
  ((deadline - completion_time : ℤ) : ℚ) / 86400

/-- The loop-body condition of `calculate_on_time_ratio`:
`completed_at and task.due_date and completed_at <= due_date`. -/
def is_on_time (a : CompletedRow) : Bool :=
  match a.completed_at, a.due_date with
  | some c, some d => decide (c ≤ d)
  | _, _ => false

/-- Embeds `calculate_on_time_ratio`, as a function of the user's completed
assignments: 0.5 default, otherwise on-time count over all completed. -/
def calculate_on_time_ratio (assignments : List CompletedRow) : ℚ :=
  if assignments = [] then 1/2
  else ((assignments.countP is_on_time : ℕ) : ℚ) / assignments.length

/-- Embeds `calculate_skill_accuracy`: mean stored skill-match over completed
assignments, 0.5 default. -/
def calculate_skill_accuracy (assignments : List CompletedRow) : ℚ :=
  if assignments = [] then 1/2
  else
    (assignments.map (fun a => a.skill_match_score.getD 0)).sum / assignments.length

/-- Embeds `calculate_difficulty_factor`: mean of difficulty/10 over completed
assignments with a (truthy) task difficulty, 0.5 defaults. -/
def truthy_difficulty (a : CompletedRow) : Option ℤ :=
  match a.task_difficulty with
  | some d => if d = 0 then none else some d
  | none => none

def calculate_difficulty_factor (assignments : List CompletedRow) : ℚ :=
  if assignments = [] then 1/2
  else
    let contributing := assignments.filterMap truthy_difficulty
    if contributing.length > 0 then
      (contributing.map (fun d => (d : ℚ) / 10)).sum / contributing.length
    else 1/2

/-- Embeds `PerformanceService.calculate_performance_score`: weighted blend scaled
to 0-100 and clamped. -/
def calculate_performance_score (on_time_ratio skill_accuracy
    difficulty_factor : ℚ) : ℚ :=
  max 0 (min 100
    ((on_time_ratio * (1/2) + skill_accuracy * (3/10) + difficulty_factor * (1/5)) * 100))

/-- Days early/late for one completed assignment, when both timestamps are
present (the `speeds` loop body of `update_user_performance`). -/
def row_speed (a : CompletedRow) : Option ℚ :=
  match a.completed_at, a.due_date with
  | some c, some d => some (calculate_completion_speed d c)
  | _, _ => none

/-- The mutable slice of `user_skill_profile` the recomputation writes. -/
structure ProfileRow where
  performance_score : ℚ
  tasks_completed : ℕ
  avg_completion_time : ℚ
deriving DecidableEq

/-- Row of the append-only `performance_log` table. -/
structure PerformanceLog where
  assignment_id : Option ℕ
  tasks_completed : ℕ
  on_time_ratio : ℚ
  skill_accuracy : ℚ
  difficulty_factor : ℚ
  avg_completion_time : ℚ
  avg_completion_speed : ℚ
  performance_score : ℚ
  score_change : ℚ
deriving DecidableEq

/-- Database state visible to `update_user_performance` for one user. -/
structure PerfState where
  user_exists : Bool
  profile : Option ProfileRow
  completed : List CompletedRow
  logs : List PerformanceLog
deriving DecidableEq

inductive PerfResult
  | failure
  | success (performance_score score_change : ℚ)
deriving DecidableEq

/-- The score `update_user_performance` recomputes: a pure function of the
user's completed assignments. -/
def recomputed_score (assignments : List CompletedRow) : ℚ :=
  calculate_performance_score (calculate_on_time_ratio assignments)
    (calculate_skill_accuracy assignments) (calculate_difficulty_factor assignments)

/-- The `avg_completion_time` value as recomputed from the completed assignments. -/
def recomputed_avg_time (assignments : List CompletedRow) : ℚ :=
  if assignments.length > 0 then
    (assignments.map (fun a => a.actual_completion_hours.getD 0)).sum /
      assignments.length
  else 0

/-- The `avg_completion_speed` value as recomputed from the completed assignments. -/
def recomputed_avg_speed (assignments : List CompletedRow) : ℚ :=
  let speeds := assignments.filterMap row_speed
  if speeds = [] then 0 else speeds.sum / speeds.length

/-- Embeds `PerformanceService.update_user_performance`: recompute the three
metrics and the blended score from the completed assignments, write the
profile cache, append a `PerformanceLog` with
`score_change = new − old`. -/
def update_user_performance (assignment_id : Option ℕ) (st : PerfState) :
    PerfResult × PerfState :=
  if st.user_exists = false then (.failure, st)
  else
    match st.profile with
    | none => (.failure, st)
    | some profile =>
      let performance_score := recomputed_score st.completed
      let old_score := profile.performance_score
      let log_entry : PerformanceLog :=
        { assignment_id := assignment_id
          tasks_completed := st.completed.length
          on_time_ratio := calculate_on_time_ratio st.completed
          skill_accuracy := calculate_skill_accuracy st.completed
          difficulty_factor := calculate_difficulty_factor st.completed
          avg_completion_time := recomputed_avg_time st.completed
          avg_completion_speed := recomputed_avg_speed st.completed
          performance_score := performance_score
          score_change := performance_score - old_score }
      (.success performance_score (performance_score - old_score),
       { st with
         profile := some
           { performance_score := performance_score
             tasks_completed := st.completed.length
             avg_completion_time := recomputed_avg_time st.completed }
         logs := st.logs ++ [log_entry] })

end PerformanceService

/-! ### RecommendationEngine (src/recommendations/\_\_init\_\_.py) -/

namespace RecommendationEngine

/-- Embeds `calculate_skill_overlap`: 0 when the profile or task is missing, 0.5
when no skills are required, 0 when the user has none, otherwise the
case-insensitive overlap fraction. -/
def calculate_skill_overlap (profile_skills : Option (List String))
    (task_required_skills : Option (List String)) : ℚ :=
  match profile_skills, task_required_skills with
  | some ps, some ts =>
    let user_skills := (ps.map lower).dedup
    let required_skills := (ts.map lower).dedup
    if required_skills = [] then 1/2
    else if user_skills = [] then 0
    else
      ((required_skills.filter (fun s => user_skills.contains s)).length : ℚ) /
        required_skills.length
  | _, _ => 0

end RecommendationEngine

/-! ### Projections on results, and concrete fixtures used as test inputs -/

/-- Assigned user of an auto-assignment outcome, when one was selected. -/
def AutoAssignResult.assigned_user_id : AutoAssignResult → Option ℕ
  | .assigned uid _ => some uid
  | _ => none

/-- Skill-match of the selected candidate, when one was selected. -/
def AutoAssignResult.assigned_skill_match : AutoAssignResult → Option ℚ
  | .assigned _ d => some d.skill_match
  | _ => none

/-- Worker profile sitting exactly on the 50% skill floor for `taskBorder`:
only one of the two required skills is present. -/
def profileBorder : UserSkillProfile :=
  { skills := ["Go"], experience_level := 5, performance_score := 50,
    tasks_completed := 0, avg_completion_time := 8, current_workload_hours := 0,
    max_weekly_hours := 40, is_available := true }

def taskBorder : Task :=
  { id := 1, required_skills := ["Go", "Kubernetes"], difficulty := 5,
    status := "To Do", assignees := [] }

def exBorder : OrgState :=
  { task := some taskBorder, users := [(1, some profileBorder)], assignments := [] }

/-- Score data `auto_assign_task` computes for `profileBorder` on
`taskBorder` under the hybrid strategy. -/
def exBorderScore : ScoreData :=
  { user_id := 1, skill_match := 1/2, workload_score := 1, performance_score := 1/2,
    experience_score := 1/2, overall_score := 13/20, estimated_completion_hours := 8,
    reason := "Low workload" }

/-- Heavily loaded worker, listed first in the pool. -/
def profileHeavy : UserSkillProfile :=
  { skills := ["python"], experience_level := 5, performance_score := 50,
    tasks_completed := 0, avg_completion_time := 8, current_workload_hours := 30,
    max_weekly_hours := 40, is_available := true }

/-- Lightly loaded worker, listed second in the pool. -/
def profileLight : UserSkillProfile :=
  { skills := ["python"], experience_level := 5, performance_score := 50,
    tasks_completed := 0, avg_completion_time := 8, current_workload_hours := 5,
    max_weekly_hours := 40, is_available := true }

def taskC9 : Task :=
  { id := 2, required_skills := ["python"], difficulty := 5,
    status := "To Do", assignees := [] }

/-- Pool where both workers have a perfect skill match (equal composite
score under the skill-match strategy) but different workloads. -/
def exC9 : OrgState :=
  { task := some taskC9,
    users := [(1, some profileHeavy), (2, some profileLight)], assignments := [] }

/-- Score data for `profileHeavy` on `taskC9` under the skill-match
strategy. -/
def exC9score : ScoreData :=
  { user_id := 1, skill_match := 1, workload_score := 1/4, performance_score := 1/2,
    experience_score := 1/2, overall_score := 1, estimated_completion_hours := 8,
    reason := "Excellent skill match" }

/-- An active assignment of task 1 to worker 1. -/
def asnC4 : TaskAssignment :=
  { task_id := 1, assigned_user_id := 1, assigned_by_id := none,
    assignment_strategy := "hybrid", skill_match_score := 1, workload_score := 1,
    performance_score := 1/2, overall_score := 13/20,
    estimated_completion_hours := some 5, actual_completion_hours := none,
    assignment_reason := "Suitable match", reassigned_at := none,
    reassignment_reason := none, assignment_status := "active",
    assigned_at := 0, completed_at := none }

def taskC4 : Task :=
  { id := 1, required_skills := ["python"], difficulty := 5,
    status := "In Progress", assignees := [1] }

/-- Task 1 already has the active assignment `asnC4`; worker 2 is available
for the reassignment. -/
def exC4 : OrgState :=
  { task := some taskC4, users := [(2, some profileLight)], assignments := [asnC4] }

/-- Score data for `profileLight` on `taskC4` under the hybrid strategy. -/
def exC4score : ScoreData :=
  { user_id := 2, skill_match := 1, workload_score := 7/8, performance_score := 1/2,
    experience_score := 1/2, overall_score := 13/16, estimated_completion_hours := 8,
    reason := "Excellent skill match | Low workload" }

/-- A cancelled (non-active) assignment owned by worker 7. -/
def asnC3 : TaskAssignment :=
  { task_id := 1, assigned_user_id := 7, assigned_by_id := none,
    assignment_strategy := "hybrid", skill_match_score := 1, workload_score := 1,
    performance_score := 1/2, overall_score := 13/20,
    estimated_completion_hours := some 5, actual_completion_hours := none,
    assignment_reason := "Suitable match", reassigned_at := none,
    reassignment_reason := none, assignment_status := "cancelled",
    assigned_at := 0, completed_at := none }

def profileC3 : UserSkillProfile :=
  { skills := ["python"], experience_level := 5, performance_score := 50,
    tasks_completed := 0, avg_completion_time := 8, current_workload_hours := 10,
    max_weekly_hours := 40, is_available := true }

def exC3 : RouteState :=
  { assignments := [(1, asnC3)], profiles := [(7, profileC3)] }

/-- A completed assignment with both hour fields set. -/
def asnC8 : TaskAssignment :=
  { task_id := 1, assigned_user_id := 7, assigned_by_id := none,
    assignment_strategy := "hybrid", skill_match_score := 1, workload_score := 1,
    performance_score := 1/2, overall_score := 13/20,
    estimated_completion_hours := some 5, actual_completion_hours := some 4,
    assignment_reason := "Suitable match", reassigned_at := none,
    reassignment_reason := none, assignment_status := "completed",
    assigned_at := 0, completed_at := some 10 }

/-- One completed on-time assignment (skill match 0.8, difficulty 5). -/
def rowC6 : PerformanceService.CompletedRow :=
  { skill_match_score := some (4/5), completed_at := some 100, due_date := some 200,
    task_difficulty := some 5, actual_completion_hours := some 4 }

def exC6 : PerformanceService.PerfState :=
  { user_exists := true,
    profile := some { performance_score := 50, tasks_completed := 0, avg_completion_time := 8 },
    completed := [rowC6], logs := [] }

/-! ## Helper lemmas -/

theorem select_best_cons (hd x : ScoreData) (tl : List ScoreData) :
    select_best hd (x :: tl) =
      select_best (if hd.overall_score < x.overall_score then x else hd) tl := rfl

theorem select_best_mem (hd : ScoreData) (tl : List ScoreData) :
    select_best hd tl ∈ hd :: tl := by
  induction tl generalizing hd with
  | nil => simp [select_best]
  | cons x t ih =>
    rw [select_best_cons]
    by_cases hlt : hd.overall_score < x.overall_score
    · rw [if_pos hlt]
      exact List.mem_cons_of_mem _ (ih x)
    · rw [if_neg hlt]
      rcases List.mem_cons.1 (ih hd) with h | h
      · rw [h]; exact List.mem_cons_self _ _
      · exact List.mem_cons_of_mem _ (List.mem_cons_of_mem _ h)

theorem select_best_le (hd : ScoreData) (tl : List ScoreData) :
    ∀ x ∈ hd :: tl, x.overall_score ≤ (select_best hd tl).overall_score := by
  induction tl generalizing hd with
  | nil => intro x hx; rw [List.mem_singleton.1 hx]; exact le_refl _
  | cons y t ih =>
    intro x hx
    rw [select_best_cons]
    by_cases hlt : hd.overall_score < y.overall_score
    · rw [if_pos hlt]
      rcases List.mem_cons.1 hx with h | h
      · subst h
        exact le_trans (le_of_lt hlt) (ih y y (List.mem_cons_self _ _))
      · exact ih y x h
    · rw [if_neg hlt]
      rcases List.mem_cons.1 hx with h | h
      · rw [h]
        exact ih hd hd (List.mem_cons_self _ _)
      · rcases List.mem_cons.1 h with h2 | h2
        · subst h2
          exact le_trans (not_lt.1 hlt) (ih hd hd (List.mem_cons_self _ _))
        · exact ih hd x (List.mem_cons_of_mem _ h2)

/-- The winner `select_best` is the first maximum of the list: everything before it is
strictly smaller, everything after it is no larger. -/
theorem select_best_first_max (hd : ScoreData) (tl : List ScoreData) :
    ∃ l₁ l₂, hd :: tl = l₁ ++ select_best hd tl :: l₂ ∧
      (∀ x ∈ l₁, x.overall_score < (select_best hd tl).overall_score) ∧
      (∀ x ∈ l₂, x.overall_score ≤ (select_best hd tl).overall_score) := by
  induction tl generalizing hd with
  | nil => exact ⟨[], [], by simp [select_best], by simp, by simp⟩
  | cons y t ih =>
    rw [select_best_cons]
    by_cases hlt : hd.overall_score < y.overall_score
    · rw [if_pos hlt]
      obtain ⟨l₁, l₂, hsplit, hbefore, hafter⟩ := ih y
      refine ⟨hd :: l₁, l₂, by rw [List.cons_append, ← hsplit], ?_, hafter⟩
      intro x hx
      rcases List.mem_cons.1 hx with h | h
      · subst h
        exact lt_of_lt_of_le hlt (select_best_le y t y (List.mem_cons_self _ _))
      · exact hbefore x h
    · rw [if_neg hlt]
      obtain ⟨l₁, l₂, hsplit, hbefore, hafter⟩ := ih hd
      cases l₁ with
      | nil =>
        simp only [List.nil_append] at hsplit
        injection hsplit with hb ht
        refine ⟨[], y :: t, ?_, by simp, ?_⟩
        · rw [List.nil_append, ← hb]
        · intro x hx
          rcases List.mem_cons.1 hx with h | h
          · subst h
            rw [← hb]
            exact not_lt.1 hlt
          · exact hafter x (ht ▸ h)
      | cons w l₁t =>
        simp only [List.cons_append] at hsplit
        injection hsplit with hw ht
        have hhd : hd.overall_score < (select_best hd t).overall_score := by
          have h3 := hbefore w (List.mem_cons_self _ _)
          rw [← hw] at h3
          exact h3
        refine ⟨hd :: y :: l₁t, l₂, ?_, ?_, hafter⟩
        · simp only [List.cons_append]
          exact congrArg (fun l => hd :: y :: l) ht
        · intro x hx
          rcases List.mem_cons.1 hx with h | h
          · exact h ▸ hhd
          · rcases List.mem_cons.1 h with h2 | h2
            · exact h2 ▸ lt_of_le_of_lt (not_lt.1 hlt) hhd
            · exact hbefore x (List.mem_cons_of_mem _ h2)

/-- Everything surviving the eligibility filter is at or above the skill
floor. -/
theorem eligible_mem_floor (strategy : AssignmentStrategy) (task : Task)
    (users : List (ℕ × Option UserSkillProfile)) (l : List ScoreData)
    (h : eligible_scores strategy task users = some l) :
    ∀ d ∈ l, AssignmentMetrics.MIN_SKILL_MATCH ≤ d.skill_match := by
  unfold eligible_scores at h
  cases hs : score_all strategy task users with
  | none => rw [hs] at h; simp at h
  | some scored =>
    rw [hs] at h
    simp only [Option.map_some', Option.some.injEq] at h
    subst h
    intro d hd
    have hfilter := List.of_mem_filter hd
    simp only [Bool.not_eq_true', decide_eq_false_iff_not, not_lt] at hfilter
    exact hfilter

/-- Inversion of a successful `auto_assign_task`, full-state form. -/
theorem auto_assign_assigned_inv_full (strategy : AssignmentStrategy) (now : ℤ)
    (st : OrgState) (uid : ℕ) (d : ScoreData) (st' : OrgState)
    (h : auto_assign_task strategy now st = (.assigned uid d, st')) :
    ∃ task hd tl, st.task = some task ∧
      eligible_scores strategy task st.users = some (hd :: tl) ∧
      d = select_best hd tl ∧ uid = d.user_id ∧
      st' =
        { st with
          task := some { task with
            assignees := task.assignees ++ [d.user_id], status := "In Progress" }
          assignments := st.assignments ++ [mk_assignment now task.id strategy d] } := by
  unfold auto_assign_task at h
  split at h
  · simp at h
  · split at h
    · simp at h
    · split at h
      · simp at h
      · simp at h
      · rename_i otask task htask husers oscores hd tl heq
        simp only [Prod.mk.injEq, AutoAssignResult.assigned.injEq] at h
        obtain ⟨⟨huid, hd_eq⟩, hst⟩ := h
        refine ⟨task, hd, tl, htask, heq, hd_eq.symm, ?_, ?_⟩
        · rw [← huid, hd_eq]
        · rw [← hst, hd_eq]

/-- Inversion of a successful `auto_assign_task`, projection form. -/
theorem auto_assign_assigned_inv (strategy : AssignmentStrategy) (now : ℤ)
    (st : OrgState) (uid : ℕ) (d : ScoreData)
    (h : (auto_assign_task strategy now st).1 = .assigned uid d) :
    ∃ task hd tl, st.task = some task ∧
      eligible_scores strategy task st.users = some (hd :: tl) ∧
      d = select_best hd tl ∧ uid = d.user_id ∧
      (auto_assign_task strategy now st).2 =
        { st with
          task := some { task with
            assignees := task.assignees ++ [d.user_id], status := "In Progress" }
          assignments := st.assignments ++ [mk_assignment now task.id strategy d] } := by
  have hfull : auto_assign_task strategy now st =
      (.assigned uid d, (auto_assign_task strategy now st).2) := by
    rw [← h]
  exact auto_assign_assigned_inv_full strategy now st uid d _ hfull

/-- Stamping never touches `assignment_status`. -/
theorem modify_at_status (now : ℤ) (reason : Option String) (j : ℕ)
    (l : List TaskAssignment) :
    (modify_at (stamp_reassigned now reason) j l).map TaskAssignment.assignment_status =
      l.map TaskAssignment.assignment_status := by
  induction l generalizing j with
  | nil => cases j <;> rfl
  | cons a t ih =>
    cases j with
    | zero => simp [modify_at, stamp_reassigned]
    | succ n => simp [modify_at, ih n]

/-- Stamping via `stamp_latest` preserves the task, the users and every
`assignment_status`. -/
theorem stamp_latest_spec (now : ℤ) (reason : Option String) (st : OrgState) :
    (stamp_latest now reason st).assignments.map TaskAssignment.assignment_status =
      st.assignments.map TaskAssignment.assignment_status ∧
    (stamp_latest now reason st).users = st.users ∧
    (stamp_latest now reason st).task = st.task := by
  unfold stamp_latest
  split
  · exact ⟨rfl, rfl, rfl⟩
  · exact ⟨modify_at_status _ _ _ _, rfl, rfl⟩

/-- Concrete run: on `exBorder` (one candidate whose skill match is exactly
0.5) the hybrid auto-assignment selects that candidate. -/
theorem auto_assign_border_eval :
    (auto_assign_task .HYBRID 0 exBorder).1 = .assigned 1 exBorderScore := by
  norm_num +decide [auto_assign_task, exBorder, eligible_scores, score_all, select_best,
    calculate_user_score, profileBorder, taskBorder, exBorderScore,
    AssignmentMetrics.calculate_skill_match, AssignmentMetrics.MIN_SKILL_MATCH,
    AssignmentMetrics.calculate_workload_score,
    AssignmentMetrics.calculate_performance_score,
    AssignmentMetrics.calculate_experience_score,
    AssignmentMetrics.calculate_difficulty_adjustment,
    AssignmentMetrics.calculate_completion_time_estimate,
    generate_assignment_reason, min_def]

/-- Concrete run: on `exC9` (two equally scored candidates, the heavier one
listed first) the skill-match strategy selects the first-listed worker 1. -/
theorem auto_assign_exC9_eval :
    (auto_assign_task .SKILL_MATCH 0 exC9).1 = .assigned 1 exC9score := by
  norm_num +decide [auto_assign_task, exC9, eligible_scores, score_all, select_best,
    calculate_user_score, profileHeavy, profileLight, taskC9, exC9score,
    AssignmentMetrics.calculate_skill_match, AssignmentMetrics.MIN_SKILL_MATCH,
    AssignmentMetrics.calculate_workload_score,
    AssignmentMetrics.calculate_performance_score,
    AssignmentMetrics.calculate_experience_score,
    AssignmentMetrics.calculate_difficulty_adjustment,
    AssignmentMetrics.calculate_completion_time_estimate,
    generate_assignment_reason, min_def]

/-- Concrete run: reassigning task 1 away from worker 1 hands it to worker 2. -/
theorem reassign_exC4_eval :
    (reassign_task .HYBRID 100 (some ("rebalance")) exC4).1 = .assigned 2 exC4score := by
  norm_num +decide [reassign_task, stamp_latest, latest_with_idx, modify_at,
    stamp_reassigned, exC4, asnC4, auto_assign_task, eligible_scores, score_all,
    select_best, mk_assignment, calculate_user_score, profileLight, taskC4, exC4score,
    AssignmentMetrics.calculate_skill_match, AssignmentMetrics.MIN_SKILL_MATCH,
    AssignmentMetrics.calculate_workload_score,
    AssignmentMetrics.calculate_performance_score,
    AssignmentMetrics.calculate_experience_score,
    AssignmentMetrics.calculate_difficulty_adjustment,
    AssignmentMetrics.calculate_completion_time_estimate,
    generate_assignment_reason, min_def]

/-! ## Claim theorems -/

/-- C1: `auto_assign_task` never assigns to a candidate whose skill match is
below the 0.5 floor (both the returned score data and the created assignment
record satisfy it), and the floor is strict: on `exBorder` a candidate with
skill match exactly 0.5 survives the filter and is assigned. -/
theorem C1_auto_assign_skill_floor :
    (∀ (strategy : AssignmentStrategy) (now : ℤ) (st : OrgState) (uid : ℕ)
      (d : ScoreData),
      (auto_assign_task strategy now st).1 = .assigned uid d →
      AssignmentMetrics.MIN_SKILL_MATCH ≤ d.skill_match ∧
      ∃ a, ((auto_assign_task strategy now st).2).assignments = st.assignments ++ [a] ∧
        AssignmentMetrics.MIN_SKILL_MATCH ≤ a.skill_match_score) ∧
    ((auto_assign_task .HYBRID 0 exBorder).1 = .assigned 1 exBorderScore ∧
      exBorderScore.skill_match = AssignmentMetrics.MIN_SKILL_MATCH) := by
  constructor
  · intro strategy now st uid d h
    obtain ⟨task, hd, tl, htask, hes, hdeq, huid, hst⟩ :=
      auto_assign_assigned_inv _ _ _ _ _ h
    have hfloor : AssignmentMetrics.MIN_SKILL_MATCH ≤ d.skill_match := by
      have hmem := select_best_mem hd tl
      rw [← hdeq] at hmem
      exact eligible_mem_floor _ _ _ _ hes d hmem
    exact ⟨hfloor, mk_assignment now task.id strategy d, by rw [hst], hfloor⟩
  · exact ⟨auto_assign_border_eval,
      by norm_num [exBorderScore, AssignmentMetrics.MIN_SKILL_MATCH]⟩

/-- Witness for C1 at the concrete pool `exBorder`. -/
theorem C1_auto_assign_skill_floor_witness :
    AssignmentMetrics.MIN_SKILL_MATCH ≤ exBorderScore.skill_match ∧
    ∃ a, ((auto_assign_task .HYBRID 0 exBorder).2).assignments =
        exBorder.assignments ++ [a] ∧
      AssignmentMetrics.MIN_SKILL_MATCH ≤ a.skill_match_score :=
  C1_auto_assign_skill_floor.1 .HYBRID 0 exBorder 1 exBorderScore auto_assign_border_eval

/-- C2 counterexample: on `exBorder` the assignment succeeds with estimated
hours 8, yet the task status is set to "In Progress" (not "assigned") and
the users table — including the winner's `current_workload_hours`, which
starts at 0 — is not written at all. -/
theorem C2_counterexample :
    (auto_assign_task .HYBRID 0 exBorder).1 = .assigned 1 exBorderScore ∧
    exBorderScore.estimated_completion_hours = 8 ∧
    ((auto_assign_task .HYBRID 0 exBorder).2).task.map Task.status =
      some ("In Progress") ∧
    ("In Progress" : String) ≠ "assigned" ∧
    ((auto_assign_task .HYBRID 0 exBorder).2).users = exBorder.users ∧
    profileBorder.current_workload_hours = 0 := by
  obtain ⟨task, hd, tl, htask, hes, hdeq, huid, hst⟩ :=
    auto_assign_assigned_inv _ _ _ _ _ auto_assign_border_eval
  refine ⟨auto_assign_border_eval, by norm_num [exBorderScore], ?_, by decide, ?_,
    by norm_num [profileBorder]⟩
  · rw [hst]
    rfl
  · rw [hst]

/-- C2 (amended): after every successful `auto_assign_task` the created
assignment record has status "active" and the task's status is set to
"In Progress", both in the same commit; the worker profiles (hence
`current_workload_hours`) are not modified. -/
theorem C2_auto_assign_commit :
    ∀ (strategy : AssignmentStrategy) (now : ℤ) (st : OrgState) (uid : ℕ)
      (d : ScoreData),
      (auto_assign_task strategy now st).1 = .assigned uid d →
      (∃ a, ((auto_assign_task strategy now st).2).assignments = st.assignments ++ [a] ∧
        a.assignment_status = "active") ∧
      ((auto_assign_task strategy now st).2).task.map Task.status =
        some ("In Progress") ∧
      ((auto_assign_task strategy now st).2).users = st.users := by
  intro strategy now st uid d h
  obtain ⟨task, hd, tl, htask, hes, hdeq, huid, hst⟩ :=
    auto_assign_assigned_inv _ _ _ _ _ h
  refine ⟨⟨mk_assignment now task.id strategy d, by rw [hst], rfl⟩, ?_, ?_⟩
  · rw [hst]
    rfl
  · rw [hst]

/-- Witness for the amended C2 at the concrete pool `exBorder`. -/
theorem C2_auto_assign_commit_witness :
    (∃ a, ((auto_assign_task .HYBRID 0 exBorder).2).assignments =
        exBorder.assignments ++ [a] ∧ a.assignment_status = "active") ∧
    ((auto_assign_task .HYBRID 0 exBorder).2).task.map Task.status =
      some ("In Progress") ∧
    ((auto_assign_task .HYBRID 0 exBorder).2).users = exBorder.users :=
  C2_auto_assign_commit .HYBRID 0 exBorder 1 exBorderScore auto_assign_border_eval

/-- C9 counterexample: on `exC9` both candidates pass the floor with equal
composite score 1 under the skill-match strategy, but the code selects the
first-listed worker 1 with workload 30, not the lower-workload worker 2. -/
theorem C9_counterexample :
    (eligible_scores .SKILL_MATCH taskC9 exC9.users).map
      (List.map ScoreData.overall_score) = some [1, 1] ∧
    (auto_assign_task .SKILL_MATCH 0 exC9).1.assigned_user_id = some 1 ∧
    profileHeavy.current_workload_hours = 30 ∧
    profileLight.current_workload_hours = 5 := by
  refine ⟨?_, ?_, by norm_num [profileHeavy], by norm_num [profileLight]⟩
  · norm_num +decide [eligible_scores, score_all, calculate_user_score,
      exC9, profileHeavy, profileLight, taskC9,
      AssignmentMetrics.calculate_skill_match, AssignmentMetrics.MIN_SKILL_MATCH,
      AssignmentMetrics.calculate_workload_score,
      AssignmentMetrics.calculate_performance_score,
      AssignmentMetrics.calculate_experience_score,
      AssignmentMetrics.calculate_difficulty_adjustment,
      AssignmentMetrics.calculate_completion_time_estimate,
      generate_assignment_reason, min_def]
  · rw [auto_assign_exC9_eval]
    rfl

/-- C9 (amended): the selected candidate is the FIRST maximum of the
eligible list in pool order — every earlier eligible candidate scores
strictly lower and every later one no higher; ties are therefore broken by
position in the candidate pool, not by workload or worker identity. -/
theorem C9_select_first_max :
    ∀ (strategy : AssignmentStrategy) (now : ℤ) (st : OrgState) (uid : ℕ)
      (d : ScoreData),
      (auto_assign_task strategy now st).1 = .assigned uid d →
      ∃ task scores, st.task = some task ∧
        eligible_scores strategy task st.users = some scores ∧ uid = d.user_id ∧
        ∃ l₁ l₂, scores = l₁ ++ d :: l₂ ∧
          (∀ x ∈ l₁, x.overall_score < d.overall_score) ∧
          (∀ x ∈ l₂, x.overall_score ≤ d.overall_score) := by
  intro strategy now st uid d h
  obtain ⟨task, hd, tl, htask, hes, hdeq, huid, hst⟩ :=
    auto_assign_assigned_inv _ _ _ _ _ h
  subst hdeq
  obtain ⟨l₁, l₂, hsplit, hb, ha⟩ := select_best_first_max hd tl
  exact ⟨task, hd :: tl, htask, hes, huid, l₁, l₂, hsplit, hb, ha⟩

/-- Witness for the amended C9 at the concrete pool `exC9`. -/
theorem C9_select_first_max_witness :
    ∃ task scores, exC9.task = some task ∧
      eligible_scores .SKILL_MATCH task exC9.users = some scores ∧
      (1 : ℕ) = exC9score.user_id ∧
      ∃ l₁ l₂, scores = l₁ ++ exC9score :: l₂ ∧
        (∀ x ∈ l₁, x.overall_score < exC9score.overall_score) ∧
        (∀ x ∈ l₂, x.overall_score ≤ exC9score.overall_score) :=
  C9_select_first_max .SKILL_MATCH 0 exC9 1 exC9score auto_assign_exC9_eval

/-- C4 counterexample: `exC4` starts with ONE active assignment of task 1;
after `reassign_task` succeeds, the old assignment is still "active" (only
`reassigned_at`/`reassignment_reason` were stamped) and a second active
assignment for the same task exists — the at-most-one-active invariant is
violated. -/
theorem C4_counterexample :
    asnC4.assignment_status = "active" ∧ asnC4.task_id = 1 ∧
    ((reassign_task .HYBRID 100 (some ("rebalance")) exC4).2).assignments.map
      TaskAssignment.assignment_status = ["active", "active"] ∧
    ((reassign_task .HYBRID 100 (some ("rebalance")) exC4).2).assignments.countP
      (fun a => a.assignment_status == "active" && a.task_id == 1) = 2 := by
  refine ⟨rfl, rfl, ?_, ?_⟩ <;>
    norm_num +decide [reassign_task, stamp_latest, latest_with_idx, modify_at,
      stamp_reassigned, exC4, asnC4, auto_assign_task, eligible_scores, score_all,
      select_best, mk_assignment, calculate_user_score, profileLight, taskC4,
      AssignmentMetrics.calculate_skill_match, AssignmentMetrics.MIN_SKILL_MATCH,
      AssignmentMetrics.calculate_workload_score,
      AssignmentMetrics.calculate_performance_score,
      AssignmentMetrics.calculate_experience_score,
      AssignmentMetrics.calculate_difficulty_adjustment,
      AssignmentMetrics.calculate_completion_time_estimate,
      generate_assignment_reason, min_def, List.countP_cons, List.countP_nil]

/-- C4 (amended): a successful `reassign_task` leaves the status of every
pre-existing assignment unchanged (the superseded one is only stamped with
`reassigned_at` and a reason, it is NOT cancelled) and appends a new
"active" assignment; an item that already had an active assignment
therefore ends up with two. -/
theorem C4_reassign_keeps_old_active :
    ∀ (strategy : AssignmentStrategy) (now : ℤ) (reason : Option String)
      (st : OrgState) (uid : ℕ) (d : ScoreData),
      (reassign_task strategy now reason st).1 = .assigned uid d →
      ((reassign_task strategy now reason st).2).assignments.map
          TaskAssignment.assignment_status =
        st.assignments.map TaskAssignment.assignment_status ++ ["active"] := by
  intro strategy now reason st uid d h
  unfold reassign_task at h ⊢
  obtain ⟨task, hd, tl, htask, hes, hdeq, huid, hst⟩ :=
    auto_assign_assigned_inv _ _ _ _ _ h
  rw [hst]
  simp only [List.map_append]
  rw [(stamp_latest_spec now reason st).1]
  rfl

/-- Witness for the amended C4 at the concrete state `exC4`. -/
theorem C4_reassign_keeps_old_active_witness :
    ((reassign_task .HYBRID 100 (some ("rebalance")) exC4).2).assignments.map
        TaskAssignment.assignment_status =
      exC4.assignments.map TaskAssignment.assignment_status ++ ["active"] :=
  C4_reassign_keeps_old_active .HYBRID 100 (some ("rebalance")) exC4 2 exC4score
    reassign_exC4_eval

/-- C3 counterexample: `asnC3` is NOT active (it is "cancelled"), yet the
completion route answers 200/ok instead of an invalid-state failure, marks
it "completed", and never touches the worker's profile even though
`actual_hours = 3` and the worker has 10 committed hours (the claim requires
a decrement to 7). -/
theorem C3_counterexample :
    asnC3.assignment_status = "cancelled" ∧
    (complete_assignment 50 7 1 (some 3) exC3).1 = .ok ∧
    ((complete_assignment 50 7 1 (some 3) exC3).2).assignments.map
      (fun q => q.2.assignment_status) = ["completed"] ∧
    ((complete_assignment 50 7 1 (some 3) exC3).2).profiles = exC3.profiles ∧
    profileC3.current_workload_hours = 10 := by
  have h2 : (complete_assignment 50 7 1 (some 3) exC3).1 = .ok := by
    norm_num +decide [complete_assignment, exC3, asnC3, mark_completed, truthyHours]
  have h3 : ((complete_assignment 50 7 1 (some 3) exC3).2).assignments.map
      (fun q => q.2.assignment_status) = ["completed"] := by
    norm_num +decide [complete_assignment, exC3, asnC3, mark_completed, truthyHours]
  have h4 : ((complete_assignment 50 7 1 (some 3) exC3).2).profiles = exC3.profiles := by
    norm_num +decide [complete_assignment, exC3, asnC3, mark_completed, truthyHours]
  exact ⟨rfl, h2, h3, h4, rfl⟩

/-- C3 (amended): the route 404s on an unknown assignment id; for a known
assignment owned by the caller it unconditionally succeeds — there is no
active-status check — setting status "completed", stamping `completed_at`,
recording `actual_hours` when truthy, and leaving every worker profile
(hence `workload_hours`) unchanged. -/
theorem C3_complete_route_contract :
    ∀ (now : ℤ) (cur aid : ℕ) (hours : Option ℚ) (st : RouteState),
      (st.assignments.find? (fun p => p.1 == aid) = none →
        complete_assignment now cur aid hours st = (.notFound, st)) ∧
      (∀ p, st.assignments.find? (fun p => p.1 == aid) = some p →
        p.2.assigned_user_id = cur →
        (complete_assignment now cur aid hours st).1 = .ok ∧
        ((complete_assignment now cur aid hours st).2).profiles = st.profiles ∧
        ∀ q ∈ ((complete_assignment now cur aid hours st).2).assignments,
          q.1 = aid →
          q.2.assignment_status = "completed" ∧ q.2.completed_at = some now ∧
          (truthyHours hours = true → q.2.actual_completion_hours = hours)) := by
  intro now cur aid hours st
  constructor
  · intro hf
    simp only [complete_assignment, hf]
  · intro p hf hid
    have hcond : ¬(p.2.assigned_user_id ≠ cur) := fun hne => hne hid
    simp only [complete_assignment, hf, if_neg hcond]
    refine ⟨by trivial, by trivial, ?_⟩
    intro q hq hqa
    obtain ⟨q₀, hq₀mem, hq₀eq⟩ := List.mem_map.1 hq
    by_cases hkey : (q₀.1 == aid) = true
    · rw [if_pos hkey] at hq₀eq
      rw [← hq₀eq]
      refine ⟨rfl, rfl, ?_⟩
      intro htr
      simp only [mark_completed, htr, if_pos]
    · rw [if_neg hkey] at hq₀eq
      rw [← hq₀eq] at hqa
      exact absurd (beq_iff_eq.2 hqa) hkey

/-- Witness for the amended C3 on `exC3`: a missing id 404s, and completing
assignment 1 as its owner (worker 7) succeeds with the documented writes. -/
theorem C3_complete_route_contract_witness :
    complete_assignment 50 7 2 (some 3) exC3 = (.notFound, exC3) ∧
    ((complete_assignment 50 7 1 (some 3) exC3).1 = .ok ∧
      ((complete_assignment 50 7 1 (some 3) exC3).2).profiles = exC3.profiles ∧
      ∀ q ∈ ((complete_assignment 50 7 1 (some 3) exC3).2).assignments,
        q.1 = 1 →
        q.2.assignment_status = "completed" ∧ q.2.completed_at = some 50 ∧
        (truthyHours (some 3) = true → q.2.actual_completion_hours = some 3)) :=
  ⟨(C3_complete_route_contract 50 7 2 (some 3) exC3).1 rfl,
   (C3_complete_route_contract 50 7 1 (some 3) exC3).2 (1, asnC3) rfl rfl⟩

/-- A `find?` call skips a prefix in which nothing satisfies the predicate. -/
theorem find_append_of_none (pred : String × ℚ → Bool) :
    ∀ (l l₂ : List (String × ℚ)), l.any pred = false →
      (l ++ l₂).find? pred = l₂.find? pred := by
  intro l l₂ hany
  have hnone : l.find? pred = none := by
    rw [List.find?_eq_none]
    intro x hx
    rw [List.any_eq_false] at hany
    exact hany x hx
  rw [List.find?_append, hnone, Option.none_or]

/-- Updating the entry for a present key makes `skills_get` return the new
value. -/
theorem skills_get_map_update (name : String) (v : ℚ) :
    ∀ l : List (String × ℚ), l.any (fun p => p.1 == name) = true →
      SkillManager.skills_get
        (l.map (fun p => if p.1 == name then (p.1, v) else p)) name = v := by
  intro l
  induction l with
  | nil => intro h; simp at h
  | cons a t ih =>
    intro hany
    by_cases hk : (a.1 == name) = true
    · unfold SkillManager.skills_get
      rw [List.map_cons, if_pos hk]
      simp [List.find?, hk]
    · rw [List.any_cons] at hany
      have ht : t.any (fun p => p.1 == name) = true := by
        rcases Bool.or_eq_true_iff.1 hany with h | h
        · exact absurd h hk
        · exact h
      have hk' : (a.1 == name) = false := by simpa using hk
      unfold SkillManager.skills_get at ih ⊢
      rw [List.map_cons, if_neg hk]
      simp only [List.find?, hk']
      exact ih ht

/-- Reading via `skills_get` after `skills_set` returns the stored value. -/
theorem skills_get_set (skills : List (String × ℚ)) (name : String) (v : ℚ) :
    SkillManager.skills_get (SkillManager.skills_set skills name v) name = v := by
  unfold SkillManager.skills_set
  by_cases hany : skills.any (fun p => p.1 == name) = true
  · rw [if_pos hany]
    exact skills_get_map_update name v skills hany
  · rw [if_neg hany]
    rw [Bool.not_eq_true] at hany
    unfold SkillManager.skills_get
    rw [find_append_of_none _ skills [(name, v)] hany]
    simp [List.find?]

/-- C5 counterexample: starting at proficiency 150 (already above 100) and
incrementing by the non-negative amount 0, the stored value drops from 150
to 105 — the call is not monotone above 100. -/
theorem C5_counterexample :
    SkillManager.increment_skill_value 150 0 = 105 ∧
    SkillManager.skills_get
      (SkillManager.increment_skill [("Python", 150)] ("Python") 0) ("Python") = 105 ∧
    (105 : ℚ) < 150 ∧ (0 : ℚ) ≤ 0 := by
  refine ⟨?_, ?_, by norm_num, le_refl 0⟩
  · norm_num [SkillManager.increment_skill_value]
  · norm_num +decide [SkillManager.increment_skill, SkillManager.increment_skill_value,
      SkillManager.skills_get, SkillManager.skills_set, List.find?]

/-- C5 (amended): `increment_skill` computes `new = current + amount` with
diminishing returns `100 + (new − 100)·0.1` above 100, and is monotonically
non-decreasing for starting proficiencies at most 100 and non-negative
amounts (above 100 the diminishing-returns formula can lower the stored
value, as the counterexample shows). -/
theorem C5_increment_skill_monotone :
    (∀ current increment : ℚ, current ≤ 100 → 0 ≤ increment →
      current ≤ SkillManager.increment_skill_value current increment) ∧
    (∀ (skills : List (String × ℚ)) (name : String) (increment : ℚ),
      SkillManager.skills_get skills name ≤ 100 → 0 ≤ increment →
      SkillManager.skills_get skills name ≤
        SkillManager.skills_get
          (SkillManager.increment_skill skills name increment) name) := by
  have hval : ∀ current increment : ℚ, current ≤ 100 → 0 ≤ increment →
      current ≤ SkillManager.increment_skill_value current increment := by
    intro current increment hc hi
    unfold SkillManager.increment_skill_value
    by_cases h : (100 : ℚ) < current + increment
    · rw [if_pos h]
      have : (0 : ℚ) ≤ (current + increment - 100) * (1 / 10) := by
        have h0 : (0 : ℚ) ≤ current + increment - 100 := by linarith
        linarith
      linarith
    · rw [if_neg h]
      linarith
  refine ⟨hval, ?_⟩
  intro skills name increment hc hi
  unfold SkillManager.increment_skill
  rw [skills_get_set]
  exact hval _ _ hc hi

/-- Witness for the amended C5: proficiency 99 plus 5 lands at 100.4 ≥ 99,
both at the value level and through the stored skill dictionary. -/
theorem C5_increment_skill_monotone_witness :
    (99 : ℚ) ≤ SkillManager.increment_skill_value 99 5 ∧
    SkillManager.skills_get [("Python", 99)] ("Python") ≤
      SkillManager.skills_get
        (SkillManager.increment_skill [("Python", 99)] ("Python") 5) ("Python") :=
  ⟨C5_increment_skill_monotone.1 99 5 (by norm_num) (by norm_num),
   C5_increment_skill_monotone.2 [("Python", 99)] ("Python") 5
     (by norm_num [SkillManager.skills_get, List.find?]) (by norm_num)⟩

/-- Full characterisation of a successful `update_user_performance` run. -/
theorem update_success_spec (aid : Option ℕ) (st : PerformanceService.PerfState)
    (profile : PerformanceService.ProfileRow)
    (hu : st.user_exists = true) (hprof : st.profile = some profile) :
    PerformanceService.update_user_performance aid st =
      (.success (PerformanceService.recomputed_score st.completed)
        (PerformanceService.recomputed_score st.completed - profile.performance_score),
       { st with
         profile := some
           { performance_score := PerformanceService.recomputed_score st.completed
             tasks_completed := st.completed.length
             avg_completion_time := PerformanceService.recomputed_avg_time st.completed }
         logs := st.logs ++
           [{ assignment_id := aid
              tasks_completed := st.completed.length
              on_time_ratio := PerformanceService.calculate_on_time_ratio st.completed
              skill_accuracy := PerformanceService.calculate_skill_accuracy st.completed
              difficulty_factor :=
                PerformanceService.calculate_difficulty_factor st.completed
              avg_completion_time := PerformanceService.recomputed_avg_time st.completed
              avg_completion_speed :=
                PerformanceService.recomputed_avg_speed st.completed
              performance_score := PerformanceService.recomputed_score st.completed
              score_change := PerformanceService.recomputed_score st.completed -
                profile.performance_score }] }) := by
  unfold PerformanceService.update_user_performance
  have hne : ¬(st.user_exists = false) := by rw [hu]; simp
  rw [if_neg hne, hprof]

/-- C6: the completion-triggered performance recomputation is idempotent —
if a run succeeds with score `s`, an immediate second run (no new completed
assignments) succeeds with the same score `s` and a `score_change` of 0. -/
theorem C6_recompute_idempotent :
    ∀ (aid₁ aid₂ : Option ℕ) (st : PerformanceService.PerfState) (s c : ℚ),
      (PerformanceService.update_user_performance aid₁ st).1 = .success s c →
      (PerformanceService.update_user_performance aid₂
        ((PerformanceService.update_user_performance aid₁ st).2)).1 =
        .success s 0 := by
  intro aid₁ aid₂ st s c h
  by_cases hu : st.user_exists = true
  · cases hprof : st.profile with
    | none =>
      rw [PerformanceService.update_user_performance,
        if_neg (by rw [hu]; simp), hprof] at h
      simp at h
    | some profile =>
      have hspec := update_success_spec aid₁ st profile hu hprof
      rw [hspec] at h
      simp only [PerformanceService.PerfResult.success.injEq] at h
      obtain ⟨hs, _⟩ := h
      have hspec2 := update_success_spec aid₂
        ((PerformanceService.update_user_performance aid₁ st).2)
        { performance_score := PerformanceService.recomputed_score st.completed
          tasks_completed := st.completed.length
          avg_completion_time := PerformanceService.recomputed_avg_time st.completed }
        (by rw [hspec]; exact hu) (by rw [hspec])
      have hcompleted :
          ((PerformanceService.update_user_performance aid₁ st).2).completed =
            st.completed := by rw [hspec]
      rw [hspec2, hcompleted]
      simp only [PerformanceService.PerfResult.success.injEq]
      exact ⟨hs, by rw [hs]; ring⟩
  · rw [PerformanceService.update_user_performance,
      if_pos (by rwa [Bool.not_eq_true] at hu)] at h
    simp at h

/-- Concrete run: on `exC6` the recomputation succeeds with score 84 and a
change of 34 from the cached 50. -/
theorem update_exC6_eval :
    (PerformanceService.update_user_performance none exC6).1 = .success 84 34 := by
  norm_num +decide [PerformanceService.update_user_performance, exC6, rowC6,
    PerformanceService.recomputed_score,
    PerformanceService.calculate_on_time_ratio, PerformanceService.is_on_time,
    PerformanceService.calculate_skill_accuracy,
    PerformanceService.calculate_difficulty_factor,
    PerformanceService.truthy_difficulty,
    PerformanceService.calculate_performance_score,
    List.filterMap_cons, List.filterMap_nil, List.countP_cons, List.countP_nil,
    min_def, max_def]

/-- Witness for C6 at the concrete state `exC6`. -/
theorem C6_recompute_idempotent_witness :
    (PerformanceService.update_user_performance none
      ((PerformanceService.update_user_performance none exC6).2)).1 =
      .success 84 0 :=
  C6_recompute_idempotent none none exC6 84 34 update_exC6_eval

/-- C7 counterexample: `calculate_difficulty_adjustment` at experience
level 0 does not return a value — the Python division
`task_difficulty / user_experience` raises `ZeroDivisionError` (modelled as
`none`). -/
theorem C7_counterexample :
    AssignmentMetrics.calculate_difficulty_adjustment 5 0 = none ∧
    AssignmentMetrics.calculate_completion_time_estimate 5 8 0 = none := by
  constructor
  · rfl
  · norm_num [AssignmentMetrics.calculate_completion_time_estimate]

/-- C7 (amended): the scoring components are pure functions of their
arguments; `skill_match`, `workload_score`, `experience_score` and the
performance component are total by construction, while
`difficulty_adjustment` and `completion_time_estimate` return a value for
every experience level in the documented domain (≥ 1) — at experience 0
they raise `ZeroDivisionError`. -/
theorem C7_scoring_total_on_domain :
    ∀ (task_difficulty user_experience : ℤ) (user_avg : ℚ),
      1 ≤ user_experience →
      (AssignmentMetrics.calculate_difficulty_adjustment task_difficulty
        user_experience).isSome = true ∧
      (AssignmentMetrics.calculate_completion_time_estimate task_difficulty
        user_avg user_experience).isSome = true := by
  intro d e avg he
  have hne : ¬(e = 0) := by omega
  constructor
  · unfold AssignmentMetrics.calculate_difficulty_adjustment
    rw [if_neg hne]
    dsimp only
    split_ifs <;> rfl
  · unfold AssignmentMetrics.calculate_completion_time_estimate
    by_cases havg : avg ≤ 0
    · rw [if_pos havg]
      rfl
    · rw [if_neg havg, if_neg hne]
      rfl

/-- Witness for the amended C7 at difficulty 5, average 8 hours,
experience 1. -/
theorem C7_scoring_total_on_domain_witness :
    (AssignmentMetrics.calculate_difficulty_adjustment 5 1).isSome = true ∧
    (AssignmentMetrics.calculate_completion_time_estimate 5 8 1).isSome = true :=
  C7_scoring_total_on_domain 5 1 8 (le_refl 1)

/-- Evaluating `get_accuracy_ratio` on positive present hours equals the symmetric
minimum of the two ratios. -/
theorem get_accuracy_ratio_pos (rec : TaskAssignment) (av es : ℚ)
    (ha : rec.actual_completion_hours = some av)
    (he : rec.estimated_completion_hours = some es)
    (hav : 0 < av) (hes : 0 < es) :
    get_accuracy_ratio rec = min (av / es) (es / av) := by
  unfold get_accuracy_ratio
  rw [ha, he]
  have hta : truthyHours (some av) = true := by
    simp [truthyHours]
    exact ne_of_gt hav
  have hte : truthyHours (some es) = true := by
    simp [truthyHours]
    exact ne_of_gt hes
  rw [hta, hte]
  simp only [Bool.not_true, Option.getD_some]
  rw [if_neg (by simp)]
  rcases le_or_lt av es with hle | hlt
  · rw [if_pos (by rw [div_le_one hes]; exact hle)]
    rw [min_eq_left]
    exact le_trans (by rw [div_le_one hes]; exact hle)
      (by rw [one_le_div hav]; exact hle)
  · rw [if_neg (by rw [not_le, lt_div_iff₀ hes]; linarith)]
    rw [one_div_div]
    rw [min_eq_right]
    exact le_trans (by rw [div_le_one hav]; exact le_of_lt hlt)
      (by rw [one_le_div hes]; exact le_of_lt hlt)

/-- C8: `get_accuracy_ratio` is `min(actual/estimated, estimated/actual)`
when both (positive) hour values are present, 0 when either is missing; and
completing an assignment with `actual_hours` equal to its positive
estimate yields accuracy 1. -/
theorem C8_accuracy_ratio :
    (∀ (rec : TaskAssignment) (av es : ℚ),
      rec.actual_completion_hours = some av →
      rec.estimated_completion_hours = some es →
      0 < av → 0 < es → get_accuracy_ratio rec = min (av / es) (es / av)) ∧
    (∀ rec : TaskAssignment,
      rec.actual_completion_hours = none ∨ rec.estimated_completion_hours = none →
      get_accuracy_ratio rec = 0) ∧
    (∀ (rec : TaskAssignment) (es : ℚ) (now : ℤ),
      rec.estimated_completion_hours = some es → 0 < es →
      get_accuracy_ratio (mark_completed now (some es) rec) = 1) := by
  refine ⟨get_accuracy_ratio_pos, ?_, ?_⟩
  · intro rec hmiss
    unfold get_accuracy_ratio
    rcases hmiss with hm | hm <;>
      rw [hm] <;>
      simp [truthyHours]
  · intro rec es now he hes
    have hne : es ≠ 0 := ne_of_gt hes
    have ha : (mark_completed now (some es) rec).actual_completion_hours = some es := by
      simp [mark_completed, truthyHours, hne]
    have he2 : (mark_completed now (some es) rec).estimated_completion_hours =
        some es := he
    rw [get_accuracy_ratio_pos _ es es ha he2 hes hes, div_self hne]
    simp

/-- Witness for C8: accuracy 4/5 on `asnC8` (4 actual vs 5 estimated), 0 on
`asnC4` (no actual hours), and 1 after completing `asnC3` with its own
5-hour estimate. -/
theorem C8_accuracy_ratio_witness :
    get_accuracy_ratio asnC8 = min ((4 : ℚ) / 5) ((5 : ℚ) / 4) ∧
    get_accuracy_ratio asnC4 = 0 ∧
    get_accuracy_ratio (mark_completed 77 (some 5) asnC3) = 1 :=
  ⟨C8_accuracy_ratio.1 asnC8 4 5 rfl rfl (by norm_num) (by norm_num),
   C8_accuracy_ratio.2.1 asnC4 (Or.inl rfl),
   C8_accuracy_ratio.2.2 asnC3 5 77 rfl (by norm_num)⟩

/-- C10: for a worker with a skill profile, the recommendation-path
`calculate_skill_overlap` returns 0.5 on an empty required-skill set while
the assignment-path `calculate_skill_match` returns 1.0 — the two paths
disagree on this edge case. -/
theorem C10_empty_required_disagreement :
    ∀ user_skills : List String,
      RecommendationEngine.calculate_skill_overlap (some user_skills) (some []) =
        1 / 2 ∧
      AssignmentMetrics.calculate_skill_match user_skills [] = 1 ∧
      RecommendationEngine.calculate_skill_overlap (some user_skills) (some []) ≠
        AssignmentMetrics.calculate_skill_match user_skills [] := by
  intro us
  have h1 : RecommendationEngine.calculate_skill_overlap (some us) (some []) = 1 / 2 := by
    unfold RecommendationEngine.calculate_skill_overlap
    simp
  have h2 : AssignmentMetrics.calculate_skill_match us [] = 1 := by
    unfold AssignmentMetrics.calculate_skill_match
    rw [if_pos rfl]
  refine ⟨h1, h2, ?_⟩
  rw [h1, h2]
  norm_num

end Tekista
